import Mathlib

/-!
Verification of the scheduling/ordering core and the result-archive rotator of
`demos/human_pose_estimation_demo/python/human_pose_estimation_demo.py`, and of
the offline archive reader `output_skeleton.py`.

The development shallowly embeds the control loop of `main` (poll for the
result of the current cursor `next_frame_id_to_show`, advance by one on each
delivery), the half-hour archive rotation performed inside the delivery branch,
the post-`try` drain loop and final save, the exception control flow of the
`try ... except KeyboardInterrupt` block, the disabled main-loop video write,
and the `np.save` / `np.load`-with-column-split round trip used by
`output_skeleton.py`.
-/

namespace HPEDemo

/-! ### Scheduler: pending-result set and the ordered-delivery loop

Modelled from the spec: the `AsyncPipeline` class (`common/python/pipelines.py`)
is not among the source files; its pending-result dictionary, its
`get_result(id)` operation (return and remove the entry for `id` when present,
else nothing) and its completion callback (insert the finished pair keyed by
sequence id) are modelled from spec sections 3 and 4.1.  The loop shape itself
is taken from `human_pose_estimation_demo.py`: both the main loop
(lines 267-335) and the shutdown drain loop (lines 341-367) only ever call
`get_result(next_frame_id_to_show)` and increment `next_frame_id_to_show` by
exactly 1 after a successful delivery; when nothing is ready the control thread
waits and the backend hands over the next completion. -/

/-- Lookup in the pending-result set (an association list keyed by sequence id):
the result stored for key `k`, if present. -/
def getPending {R : Type} : List (Nat × R) → Nat → Option R
  | [], _ => none
  | (i, r) :: t, k => if i = k then some r else getPending t k

/-- Removal from the pending-result set: drop the first entry whose key is `k`. -/
def removePending {R : Type} : List (Nat × R) → Nat → List (Nat × R)
  | [], _ => []
  | (i, r) :: t, k => if i = k then t else (i, r) :: removePending t k

/-- The ordered-delivery loop.  State: the pending-result set, the cursor
`next_frame_id_to_show`, and the list of completion events still to arrive
(each event is a (sequence id, result) pair, listed in completion order).
Each iteration polls the pending set for the cursor: on success the pair is
delivered and the cursor advances by exactly 1; otherwise the loop blocks until
the next completion arrives and is inserted into the pending set.  The run ends
when nothing is ready and no completions remain.  The returned list is the
sequence of delivered (sequence id, result) pairs in delivery order. -/
def pollRun {R : Type} (pending : List (Nat × R)) (next_frame_id_to_show : Nat)
    (completions : List (Nat × R)) : List (Nat × R) :=
  if hg : (getPending pending next_frame_id_to_show).isSome then
    (next_frame_id_to_show, (getPending pending next_frame_id_to_show).get hg) ::
      pollRun (removePending pending next_frame_id_to_show)
        (next_frame_id_to_show + 1) completions
  else
    match completions with
    | [] => []
    | e :: es => pollRun (e :: pending) next_frame_id_to_show es
termination_by 2 * completions.length + pending.length
decreasing_by
  · have hlt : ∀ (p : List (Nat × R)) (k : Nat) (r : R),
        getPending p k = some r → (removePending p k).length < p.length := by
      intro p k
      induction p with
      | nil => intro r h; simp [getPending] at h
      | cons a t ih =>
          obtain ⟨i, ri⟩ := a
          intro r h
          by_cases hk : i = k
          · simp [removePending, hk]
          · simp only [getPending, hk, if_false] at h
            simp only [removePending, hk, if_false, List.length_cons]
            exact Nat.succ_lt_succ (ih r h)
    have := hlt pending next_frame_id_to_show
      ((getPending pending next_frame_id_to_show).get hg) (Option.some_get hg).symm
    omega
  · simp only [List.length_cons]
    omega

/-! ### Wall-clock datetimes and the half-hour archive rotator

Embeds lines 247-301 and 369-371 of `human_pose_estimation_demo.py`: the
record list, the `output/YYYYMMDD` directory and `HH00`/`HH30` file-name
computed with `strftime`, the rotation condition
`(dt_pre.minute == 59 and dt_now.minute == 0) or
 (dt_pre.minute == 29 and dt_now.minute == 30)`, the `np.save` of the
accumulated list on rotation and at shutdown, and the `record_list.append`
guarded by `args.record`. -/

/-- A wall-clock datetime with the fields the demo reads (`strftime('%Y%m%d')`,
`strftime('%H')`, `.minute`). -/
structure PyDateTime where
  year : Nat
  month : Nat
  day : Nat
  hour : Nat
  minute : Nat
deriving DecidableEq, Repr

/-- Zero-padded two-digit decimal rendering, as `strftime` fields `%m`, `%d`,
`%H` produce. -/
def twoDigits (n : Nat) : String :=
  if n < 10 then "0" ++ toString n else toString n

/-- Zero-padded four-digit decimal rendering, as `strftime('%Y')` produces. -/
def fourDigits (n : Nat) : String :=
  if n < 10 then "000" ++ toString n
  else if n < 100 then "00" ++ toString n
  else if n < 1000 then "0" ++ toString n
  else toString n

/-- `dt_now.strftime('%Y%m%d')`: the date directory name. -/
def output_dir_of (dt : PyDateTime) : String :=
  fourDigits dt.year ++ twoDigits dt.month ++ twoDigits dt.day

/-- The bucket key (lines 252-255 and 286-289):
`dt.strftime('%H') + '00'` when `dt.minute <= 29`, else
`dt.strftime('%H') + '30'`. -/
def output_file_name_of (dt : PyDateTime) : String :=
  if dt.minute ≤ 29 then twoDigits dt.hour ++ "00" else twoDigits dt.hour ++ "30"

/-- Rotation condition (line 274):
`(dt_pre.minute == 59 and dt_now.minute == 0) or
 (dt_pre.minute == 29 and dt_now.minute == 30)`. -/
def rotate_cond (dt_pre dt_now : PyDateTime) : Bool :=
  (dt_pre.minute == 59 && dt_now.minute == 0) ||
    (dt_pre.minute == 29 && dt_now.minute == 30)

/-- Recorder/rotator state: the datetime of the previously accepted result
(`dt_pre`), the current date directory and bucket file name, the accumulated
`record_list` of (poses, `time.time()` timestamp) records, the list of files
written by `np.save` so far (path, contents), and the directories passed to
`Path(...).mkdir(exist_ok=True)`. -/
structure RecorderState (P : Type) where
  dt_pre : PyDateTime
  output_dir : String
  output_file_name : String
  record_list : List (P × Nat)
  saved : List (String × List (P × Nat))
  mkdirs : List String
deriving DecidableEq, Repr

/-- The path `"output/" + output_dir + "/" + output_file_name + ".npy"` that
`np.save` writes to (lines 281 and 371). -/
def savePath {P : Type} (s : RecorderState P) : String :=
  "output/" ++ s.output_dir ++ "/" ++ s.output_file_name ++ ".npy"

/-- Startup state (lines 247-256): empty record list, directory and bucket name
computed from `datetime.datetime.now()` (`dt_now0`), the date directory
created with `mkdir(exist_ok=True)`, and `dt_pre` initialised from a second
`datetime.datetime.now()` call (`dt_pre0`). -/
def initRecorder (P : Type) (dt_now0 dt_pre0 : PyDateTime) : RecorderState P :=
  { dt_pre := dt_pre0
    output_dir := output_dir_of dt_now0
    output_file_name := output_file_name_of dt_now0
    record_list := []
    saved := []
    mkdirs := ["output/" ++ output_dir_of dt_now0] }

/-- One accepted result in the main loop's delivery branch (lines 272-301),
at wall-clock datetime `dt_now` with `time.time()` timestamp `t`.  If the
rotation condition holds, the accumulated `record_list` is saved under the
prior bucket's path, the list is cleared, the new date directory is created
and the new directory/file names are computed from `dt_now`.  Then
`dt_pre = dt_now`, and finally, when `args.record` is set, `[poses, t]` is
appended to `record_list`. -/
def acceptResult {P : Type} (record : Bool) (s : RecorderState P) (poses : P)
    (dt_now : PyDateTime) (t : Nat) : RecorderState P :=
  let s1 :=
    if rotate_cond s.dt_pre dt_now then
      { s with
        saved := s.saved ++ [(savePath s, s.record_list)]
        record_list := []
        output_dir := output_dir_of dt_now
        output_file_name := output_file_name_of dt_now
        mkdirs := s.mkdirs ++ ["output/" ++ output_dir_of dt_now] }
    else s
  let s2 := { s1 with dt_pre := dt_now }
  if record then { s2 with record_list := s2.record_list ++ [(poses, t)] } else s2

/-- All main-loop deliveries in order: each element is
(poses, wall-clock datetime, `time.time()` timestamp). -/
def acceptAll {P : Type} (record : Bool) (s : RecorderState P)
    (deliveries : List (P × PyDateTime × Nat)) : RecorderState P :=
  deliveries.foldl (fun s d => acceptResult record s d.1 d.2.1 d.2.2) s

/-- The shutdown save (lines 369-371): `if args.record: np.save(..., record_list)`
with no emptiness check.  Returns the final list of written files. -/
def finalFlush {P : Type} (record : Bool) (s : RecorderState P) :
    List (String × List (P × Nat)) :=
  if record then s.saved ++ [(savePath s, s.record_list)] else s.saved

/-- A whole recorded run: startup, the main-loop deliveries, the
post-cancellation drain-loop deliveries, then the shutdown save.  The drain
loop (lines 341-367) contains no `record_list.append`, so `drainDeliveries`
does not reach the recorder; the parameter is kept to state properties about
the full delivered sequence. -/
def runRecording {P : Type} (record : Bool) (dt_now0 dt_pre0 : PyDateTime)
    (mainDeliveries drainDeliveries : List (P × PyDateTime × Nat)) :
    List (String × List (P × Nat)) :=
  finalFlush record (acceptAll record (initRecorder P dt_now0 dt_pre0) mainDeliveries)

/-- The (poses, timestamp) records of a delivery sequence, in delivery order. -/
def deliveredRecords {P : Type} (ds : List (P × PyDateTime × Nat)) : List (P × Nat) :=
  ds.map (fun d => (d.1, d.2.2))

/-- Concatenation, in flush order, of the contents of all written files. -/
def flushedConcat {P : Type} (files : List (String × List (P × Nat))) : List (P × Nat) :=
  (files.map Prod.snd).flatten

/-- The 48 half-hour window labels of a day, `"0000"`, `"0030"`, …, `"2330"`. -/
def halfHourLabels : List String :=
  ["0000", "0030", "0100", "0130", "0200", "0230", "0300", "0330",
   "0400", "0430", "0500", "0530", "0600", "0630", "0700", "0730",
   "0800", "0830", "0900", "0930", "1000", "1030", "1100", "1130",
   "1200", "1230", "1300", "1330", "1400", "1430", "1500", "1530",
   "1600", "1630", "1700", "1730", "1800", "1830", "1900", "1930",
   "2000", "2030", "2100", "2130", "2200", "2230", "2300", "2330"]

/-! ### Control flow of `main`: the try/except block and what runs after it

Embeds lines 266-269, 336-337, 339-373 and 377.  Inside the `try`, the loop
re-raises the first backend callback exception at the top of every iteration;
the `except` clause catches only `KeyboardInterrupt`.  The statements after the
block (`await_all`, the drain loop, the final `np.save`, the metrics print) run
only if no exception escapes; an uncaught exception aborts `main` before them
and terminates the interpreter with exit status 1. -/

/-- Python exceptions relevant to the loop. -/
inductive PyExc where
  | keyboardInterrupt
  | callbackException
deriving DecidableEq, Repr

/-- The statements of `main` that follow the `try` block. -/
inductive MainAction where
  | awaitAll
  | drainResults
  | finalSave
  | printTotals
deriving DecidableEq, Repr

/-- How one run of the `while True` loop ends. -/
inductive LoopEnd where
  | sourceEnd
  | escKey
  | keyboardInterrupt
  | callbackException
deriving DecidableEq, Repr

/-- The check at the top of every loop iteration (lines 268-269):
`if hpe_pipeline.callback_exceptions: raise hpe_pipeline.callback_exceptions[0]`. -/
def callbackCheck {E : Type} (callback_exceptions : List E) : Except E Unit :=
  match callback_exceptions with
  | [] => Except.ok ()
  | e :: _ => Except.error e

/-- Outcome of the `try` body for each way the loop can end: `break` on source
end or ESC, `KeyboardInterrupt` from the user, or the re-raised callback
exception. -/
def tryBlockOutcome : LoopEnd → Except PyExc Unit
  | LoopEnd.sourceEnd => Except.ok ()
  | LoopEnd.escKey => Except.ok ()
  | LoopEnd.keyboardInterrupt => Except.error PyExc.keyboardInterrupt
  | LoopEnd.callbackException => Except.error PyExc.callbackException

/-- The `except KeyboardInterrupt: pass` clause (lines 336-337): it swallows
`KeyboardInterrupt` and lets every other exception propagate. -/
def afterTryExcept (e : LoopEnd) : Except PyExc Unit :=
  match tryBlockOutcome e with
  | Except.error PyExc.keyboardInterrupt => Except.ok ()
  | r => r

/-- The actions executed after the `try` block and the process exit status.
When no exception escapes, `main` runs `await_all`, the drain loop, the final
save (only with `args.record`) and the metrics print, and
`sys.exit(main() or 0)` exits with 0.  When an exception escapes, none of
these statements run and the interpreter exits with status 1. -/
def mainTail (record : Bool) (e : LoopEnd) : List MainAction × Nat :=
  match afterTryExcept e with
  | Except.ok _ =>
      ([MainAction.awaitAll, MainAction.drainResults] ++
        (if record then [MainAction.finalSave] else []) ++ [MainAction.printTotals], 0)
  | Except.error _ => ([], 1)

/-! ### The output video writer

Embeds lines 307-309 (main loop: the `video_writer.write(frame)` call is
commented out, the guarded branch is `pass`) and lines 354-355 (drain loop:
the write is performed). -/

/-- The guard
`video_writer.isOpened() and (args.output_limit <= 0 or
 next_frame_id_to_show <= args.output_limit - 1)` shared by both loops. -/
def writeCondition (isOpened : Bool) (output_limit : Int)
    (next_frame_id_to_show : Nat) : Bool :=
  isOpened && (decide (output_limit ≤ 0) ||
    decide ((next_frame_id_to_show : Int) ≤ output_limit - 1))

/-- Effect of one main-loop delivery on the frames written to the output video
(lines 307-309): the branch body is `pass` with the write commented out, so the
written list is returned unchanged in both cases. -/
def mainLoopVideoWrite {F : Type} (isOpened : Bool) (output_limit : Int)
    (next_frame_id_to_show : Nat) (written : List F) (frame : F) : List F :=
  if writeCondition isOpened output_limit next_frame_id_to_show then written else written

/-- Effect of one drain-loop delivery on the frames written to the output video
(lines 354-355): `video_writer.write(frame)` runs when the guard holds. -/
def drainLoopVideoWrite {F : Type} (isOpened : Bool) (output_limit : Int)
    (next_frame_id_to_show : Nat) (written : List F) (frame : F) : List F :=
  if writeCondition isOpened output_limit next_frame_id_to_show then
    written ++ [frame]
  else written

/-! ### The archive format: `np.save` and the column split in `output_skeleton.py`

`np.save` on the Python list `record_list` (whose elements are two-element
lists `[poses, time.time()]`) writes, for a nonempty list, an `(N, 2)` object
array whose row `i` is the `i`-th record; for the empty list it writes a
one-dimensional empty array of shape `(0,)`.  `output_skeleton.main`
(lines 75-76) loads the file and splits columns with `load_data[:,0]` and
`load_data[:,1]`; two-dimensional indexing of a one-dimensional array raises
`IndexError: too many indices for array`. -/

/-- What `np.save(path, record_list)` stores. -/
inductive NpSaved (P : Type) where
  | empty1D
  | array2D (rows : List (P × Nat))
deriving DecidableEq, Repr

/-- Serialisation of a record list by `np.save`. -/
def np_save {P : Type} (records : List (P × Nat)) : NpSaved P :=
  match records with
  | [] => NpSaved.empty1D
  | r :: rs => NpSaved.array2D (r :: rs)

/-- The loader of `output_skeleton.main` (lines 75-76):
`load_data = np.load(...); load_poses, load_time = load_data[:,0], load_data[:,1]`.
On a one-dimensional array the two-dimensional index raises `IndexError`. -/
def load_columns {P : Type} : NpSaved P → Except String (List P × List Nat)
  | NpSaved.empty1D => Except.error "too many indices for array"
  | NpSaved.array2D rows => Except.ok (rows.map Prod.fst, rows.map Prod.snd)

/-! ## Theorems -/

/-! ### Scheduler lemmas -/

theorem removePending_length_lt {R : Type} (p : List (Nat × R)) (k : Nat) (r : R) :
    getPending p k = some r → (removePending p k).length < p.length := by
  induction p with
  | nil => intro h; simp [getPending] at h
  | cons a t ih =>
      obtain ⟨i, ri⟩ := a
      intro h
      by_cases hk : i = k
      · simp [removePending, hk]
      · simp only [getPending, hk, if_false] at h
        simp only [removePending, hk, if_false, List.length_cons]
        exact Nat.succ_lt_succ (ih h)

theorem pollRun_some {R : Type} (p : List (Nat × R)) (c : Nat) (comps : List (Nat × R))
    (r : R) (hg : getPending p c = some r) :
    pollRun p c comps = (c, r) :: pollRun (removePending p c) (c + 1) comps := by
  rw [pollRun.eq_def]
  simp [hg]

theorem pollRun_none_nil {R : Type} (p : List (Nat × R)) (c : Nat)
    (hg : getPending p c = none) : pollRun p c [] = [] := by
  rw [pollRun.eq_def]
  simp [hg]

theorem pollRun_none_cons {R : Type} (p : List (Nat × R)) (c : Nat) (e : Nat × R)
    (es : List (Nat × R)) (hg : getPending p c = none) :
    pollRun p c (e :: es) = pollRun (e :: p) c es := by
  rw [pollRun.eq_def]
  simp [hg]

theorem getPending_none_not_mem {R : Type} (p : List (Nat × R)) (k : Nat)
    (hg : getPending p k = none) : k ∉ p.map Prod.fst := by
  induction p with
  | nil => simp
  | cons a t ih =>
      obtain ⟨i, ri⟩ := a
      by_cases hk : i = k
      · simp [getPending, hk] at hg
      · simp only [getPending, hk, if_false] at hg
        simp only [List.map_cons, List.mem_cons]
        rintro (h | h)
        · exact hk h.symm
        · exact ih hg h

theorem getPending_some_perm {R : Type} (p : List (Nat × R)) (k : Nat) (r : R)
    (hg : getPending p k = some r) :
    List.Perm p ((k, r) :: removePending p k) := by
  induction p with
  | nil => simp [getPending] at hg
  | cons a t ih =>
      obtain ⟨i, ri⟩ := a
      by_cases hk : i = k
      · simp only [getPending, hk, if_true, Option.some.injEq] at hg
        subst hk
        subst hg
        simp [removePending]
      · simp only [getPending, hk, if_false] at hg
        simp only [removePending, hk, if_false]
        exact ((ih hg).cons (i, ri)).trans (List.Perm.swap (k, r) (i, ri) _)

/-- Master lemma for the ordered-delivery loop: if the sequence ids of the
pending set together with those of the still-to-arrive completions are a
permutation of the ids `c, c+1, ..., c+M-1`, then the loop delivers exactly
the ids `c, c+1, ..., c+M-1`, in this order, and the delivered pairs are a
permutation of the pending and completed pairs. -/
theorem pollRun_delivers {R : Type} (n : Nat) :
    ∀ (p comps : List (Nat × R)) (c M : Nat),
      2 * comps.length + p.length ≤ n →
      List.Perm (p.map Prod.fst ++ comps.map Prod.fst) (List.range' c M) →
      (pollRun p c comps).map Prod.fst = List.range' c M ∧
      List.Perm (pollRun p c comps) (p ++ comps) := by
  induction n with
  | zero =>
      intro p comps c M hn hperm
      have hp : p = [] := List.length_eq_zero.mp (by omega)
      have hc : comps = [] := List.length_eq_zero.mp (by omega)
      subst hp; subst hc
      have hM : List.range' c M = [] := by
        simpa using hperm.symm.eq_nil
      rw [pollRun_none_nil [] c rfl, hM]
      exact ⟨rfl, List.Perm.refl _⟩
  | succ n ih =>
      intro p comps c M hn hperm
      cases hg : getPending p c with
      | some r =>
          rw [pollRun_some p c comps r hg]
          have hpp : List.Perm p ((c, r) :: removePending p c) :=
            getPending_some_perm p c r hg
          have hfst : List.Perm (p.map Prod.fst)
              (c :: (removePending p c).map Prod.fst) := by
            simpa using hpp.map Prod.fst
          have hperm2 : List.Perm
              (c :: ((removePending p c).map Prod.fst ++ comps.map Prod.fst))
              (List.range' c M) :=
            ((hfst.append_right (comps.map Prod.fst)).symm).trans hperm
          have hcmem : c ∈ List.range' c M :=
            hperm2.mem_iff.mp (List.mem_cons_self _ _)
          have hMpos : 0 < M := by
            rcases List.mem_range'_1.mp hcmem with ⟨-, h2⟩
            omega
          obtain ⟨M', rfl⟩ : ∃ M', M = M' + 1 := ⟨M - 1, by omega⟩
          rw [List.range'_succ] at hperm2 ⊢
          have hperm3 : List.Perm
              ((removePending p c).map Prod.fst ++ comps.map Prod.fst)
              (List.range' (c + 1) M') := hperm2.cons_inv
          have hbound : 2 * comps.length + (removePending p c).length ≤ n := by
            have := removePending_length_lt p c r hg
            omega
          obtain ⟨h1, h2⟩ := ih (removePending p c) comps (c + 1) M' hbound hperm3
          refine ⟨by simp [h1], ?_⟩
          have : List.Perm ((c, r) :: pollRun (removePending p c) (c + 1) comps)
              ((c, r) :: (removePending p c ++ comps)) := h2.cons (c, r)
          exact this.trans ((hpp.symm.append_right comps))
      | none =>
          cases comps with
          | nil =>
              rw [pollRun_none_nil _ _ hg]
              have hpf : List.Perm (p.map Prod.fst) (List.range' c M) := by
                simpa using hperm
              have hM : M = 0 := by
                by_contra hM0
                obtain ⟨M', rfl⟩ : ∃ M', M = M' + 1 := ⟨M - 1, by omega⟩
                have hcmem : c ∈ List.range' c (M' + 1) := by
                  rw [List.range'_succ]
                  exact List.mem_cons_self _ _
                exact getPending_none_not_mem p c hg (hpf.mem_iff.mpr hcmem)
              subst hM
              have hpnil : p = [] := by
                have := hpf.eq_nil
                simpa using this
              subst hpnil
              exact ⟨rfl, List.Perm.refl _⟩
          | cons e es =>
              rw [pollRun_none_cons _ _ _ _ hg]
              have hbound : 2 * es.length + (e :: p).length ≤ n := by
                simp only [List.length_cons] at hn ⊢
                omega
              have hperm2 : List.Perm
                  ((e :: p).map Prod.fst ++ es.map Prod.fst)
                  (List.range' c M) := by
                refine List.Perm.trans ?_ hperm
                simp only [List.map_cons, List.cons_append]
                exact (List.perm_middle).symm
              obtain ⟨h1, h2⟩ := ih (e :: p) es c M hbound hperm2
              refine ⟨h1, h2.trans ?_⟩
              simpa using
                (List.perm_middle : List.Perm (p ++ e :: es) (e :: (p ++ es))).symm

/-- Claim C1: for every run in which N frames are submitted (sequence ids
0..N-1) and the slots complete in an arbitrary permutation of those ids, the
control loop — which only ever requests the result for the current cursor
`next_frame_id_to_show` and advances it by exactly 1 after each successful
delivery, in the main loop as in the shutdown drain loop — delivers results in
strictly increasing sequence-id order 0..N-1, and the delivered pairs are
exactly the completed pairs, so no later-completing frame is ever shown before
an earlier one. -/
theorem delivery_in_strict_sequence_order {R : Type} (N : Nat)
    (completions : List (Nat × R))
    (h : List.Perm (completions.map Prod.fst) (List.range N)) :
    (pollRun [] 0 completions).map Prod.fst = List.range N ∧
    List.Perm (pollRun [] 0 completions) completions := by
  rw [List.range_eq_range'] at h
  obtain ⟨h1, h2⟩ := pollRun_delivers (2 * completions.length) [] completions 0 N
    (by simp) (by simpa using h)
  refine ⟨?_, by simpa using h2⟩
  rw [List.range_eq_range']
  exact h1

/-- Witness for C1: three frames completing in the order 2, 0, 1 are delivered
as 0, 1, 2. -/
theorem delivery_in_strict_sequence_order_witness :
    List.Perm (([(2, 20), (0, 10), (1, 11)] : List (Nat × Nat)).map Prod.fst)
      (List.range 3) ∧
    ((pollRun [] 0 [(2, 20), (0, 10), (1, 11)]).map Prod.fst = List.range 3 ∧
      List.Perm (pollRun [] 0 [(2, 20), (0, 10), (1, 11)])
        [(2, 20), (0, 10), (1, 11)]) :=
  ⟨by decide, delivery_in_strict_sequence_order 3 [(2, 20), (0, 10), (1, 11)] (by decide)⟩

/-! ### Rotator lemmas -/

theorem rotate_cond_iff (pre now : PyDateTime) :
    rotate_cond pre now = true ↔
      ((pre.minute = 59 ∧ now.minute = 0) ∨ (pre.minute = 29 ∧ now.minute = 30)) := by
  simp [rotate_cond, Bool.or_eq_true, Bool.and_eq_true, beq_iff_eq]

theorem acceptResult_saved {P : Type} (record : Bool) (s : RecorderState P) (poses : P)
    (dt : PyDateTime) (t : Nat) :
    (acceptResult record s poses dt t).saved =
      if rotate_cond s.dt_pre dt then s.saved ++ [(savePath s, s.record_list)]
      else s.saved := by
  unfold acceptResult
  by_cases h : rotate_cond s.dt_pre dt <;> by_cases hr : record <;> simp [h, hr]

theorem twoDigits_length (n : Nat) (h : n < 100) : (twoDigits n).length = 2 := by
  have hall : ∀ m, m < 100 → (twoDigits m).length = 2 := by decide
  exact hall n h

theorem halfHourLabels_mem (h : Nat) (hh : h < 24) :
    (twoDigits h ++ "00") ∈ halfHourLabels ∧ (twoDigits h ++ "30") ∈ halfHourLabels := by
  have hall : ∀ m, m < 24 →
      (twoDigits m ++ "00") ∈ halfHourLabels ∧ (twoDigits m ++ "30") ∈ halfHourLabels := by
    decide
  exact hall h hh

theorem acceptResult_concat {P : Type} (s : RecorderState P) (poses : P)
    (dt : PyDateTime) (t : Nat) :
    flushedConcat (acceptResult true s poses dt t).saved ++
        (acceptResult true s poses dt t).record_list =
      flushedConcat s.saved ++ s.record_list ++ [(poses, t)] := by
  unfold acceptResult
  by_cases h : rotate_cond s.dt_pre dt <;>
    simp [h, flushedConcat, List.append_assoc]

theorem acceptAll_records_invariant {P : Type} (ds : List (P × PyDateTime × Nat)) :
    ∀ s : RecorderState P,
      flushedConcat (acceptAll true s ds).saved ++ (acceptAll true s ds).record_list =
        flushedConcat s.saved ++ s.record_list ++ deliveredRecords ds := by
  induction ds with
  | nil => intro s; simp [acceptAll, deliveredRecords]
  | cons d tl ih =>
      intro s
      obtain ⟨poses, dt, tt⟩ := d
      have hstep : acceptAll true s ((poses, dt, tt) :: tl) =
          acceptAll true (acceptResult true s poses dt tt) tl := by
        simp [acceptAll]
      rw [hstep, ih (acceptResult true s poses dt tt), acceptResult_concat]
      simp [deliveredRecords, List.append_assoc]

/-! ### Claim C2 (corrected) -/

/-- Counterexample to claim C2 as stated: a result accepted at minute 31
following one accepted at minute 29 of the same hour computes a different
bucket key (1230 instead of 1200), yet triggers no flush at all — the code
tests the exact minute pairs (59, 0) and (29, 30), not key inequality. -/
theorem minute29_to_minute31_does_not_flush :
    output_file_name_of (⟨2021, 1, 1, 12, 29⟩ : PyDateTime) ≠
      output_file_name_of (⟨2021, 1, 1, 12, 31⟩ : PyDateTime) ∧
    (acceptResult true
        (acceptResult true (initRecorder Nat ⟨2021, 1, 1, 12, 0⟩ ⟨2021, 1, 1, 12, 0⟩)
          0 ⟨2021, 1, 1, 12, 29⟩ 100)
        1 ⟨2021, 1, 1, 12, 31⟩ 200).saved = [] := by
  decide

/-- Amended C2: on each accepted result a flush of the prior bucket (saved
under the prior bucket's path, with the buffer then cleared) is triggered
exactly when the previous accepted result's minute is 59 and the current one's
is 0, or the previous is 29 and the current is exactly 30 — not whenever the
bucket key differs.  In particular minute 29 followed by minute 30 flushes
exactly once; minute 29 followed by minute 31 does not flush. -/
theorem rotation_on_exact_minute_pairs {P : Type} (record : Bool)
    (s : RecorderState P) (poses : P) (dt : PyDateTime) (t : Nat) :
    ((acceptResult record s poses dt t).saved =
      if rotate_cond s.dt_pre dt then s.saved ++ [(savePath s, s.record_list)]
      else s.saved) ∧
    (rotate_cond s.dt_pre dt = true ↔
      ((s.dt_pre.minute = 59 ∧ dt.minute = 0) ∨
        (s.dt_pre.minute = 29 ∧ dt.minute = 30))) :=
  ⟨acceptResult_saved record s poses dt t, rotate_cond_iff s.dt_pre dt⟩

/-! ### Claim C8 (corrected) -/

/-- Counterexample to claim C8 as stated: wall-clock time moving backward from
12:30 to 12:00 recomputes a smaller bucket key (1200 instead of 1230), yet no
flush is triggered, because the minute pair (30, 0) matches neither (59, 0)
nor (29, 30). -/
theorem backward_jump_without_flush :
    (⟨2021, 1, 1, 12, 0⟩ : PyDateTime).minute <
      (initRecorder Nat ⟨2021, 1, 1, 12, 30⟩ ⟨2021, 1, 1, 12, 30⟩).dt_pre.minute ∧
    output_file_name_of (⟨2021, 1, 1, 12, 0⟩ : PyDateTime) ≠
      output_file_name_of (⟨2021, 1, 1, 12, 30⟩ : PyDateTime) ∧
    (acceptResult true (initRecorder Nat ⟨2021, 1, 1, 12, 30⟩ ⟨2021, 1, 1, 12, 30⟩)
        5 ⟨2021, 1, 1, 12, 0⟩ 100).saved = [] := by
  decide

/-- Amended C8: for consecutive accepted results whose wall-clock times move
backward within the same hour (so the recomputed bucket key is not larger),
the key difference is not in general treated as a boundary crossing: a flush
is triggered if and only if the minute pair is exactly (59, 0) or (29, 30). -/
theorem backward_key_change_flush_iff {P : Type} (record : Bool)
    (s : RecorderState P) (poses : P) (dt : PyDateTime) (t : Nat)
    (hhour : dt.hour = s.dt_pre.hour) (hback : dt.minute < s.dt_pre.minute) :
    ((acceptResult record s poses dt t).saved ≠ s.saved ↔
      ((s.dt_pre.minute = 59 ∧ dt.minute = 0) ∨
        (s.dt_pre.minute = 29 ∧ dt.minute = 30))) := by
  rw [acceptResult_saved]
  by_cases h : rotate_cond s.dt_pre dt
  · rw [if_pos h]
    have hne : s.saved ++ [(savePath s, s.record_list)] ≠ s.saved := by
      intro hEq
      have := congrArg List.length hEq
      simp at this
    simp only [ne_eq, hne, not_false_eq_true, true_iff]
    exact (rotate_cond_iff _ _).mp h
  · rw [if_neg h]
    simp only [ne_eq, not_true_eq_false, false_iff]
    intro hr
    exact h ((rotate_cond_iff _ _).mpr hr)

/-- Witness for the amended C8: a backward jump from 12:59 to 12:00 satisfies
the hypotheses, and there the flush does fire (minute pair (59, 0)). -/
theorem backward_key_change_flush_iff_witness :
    ((⟨2021, 1, 1, 12, 0⟩ : PyDateTime).hour =
        (initRecorder Nat ⟨2021, 1, 1, 12, 59⟩ ⟨2021, 1, 1, 12, 59⟩).dt_pre.hour ∧
      (⟨2021, 1, 1, 12, 0⟩ : PyDateTime).minute <
        (initRecorder Nat ⟨2021, 1, 1, 12, 59⟩ ⟨2021, 1, 1, 12, 59⟩).dt_pre.minute) ∧
    ((acceptResult true (initRecorder Nat ⟨2021, 1, 1, 12, 59⟩ ⟨2021, 1, 1, 12, 59⟩)
          7 ⟨2021, 1, 1, 12, 0⟩ 42).saved ≠
        (initRecorder Nat ⟨2021, 1, 1, 12, 59⟩ ⟨2021, 1, 1, 12, 59⟩).saved ↔
      (((initRecorder Nat ⟨2021, 1, 1, 12, 59⟩ ⟨2021, 1, 1, 12, 59⟩).dt_pre.minute = 59 ∧
          (⟨2021, 1, 1, 12, 0⟩ : PyDateTime).minute = 0) ∨
        ((initRecorder Nat ⟨2021, 1, 1, 12, 59⟩ ⟨2021, 1, 1, 12, 59⟩).dt_pre.minute = 29 ∧
          (⟨2021, 1, 1, 12, 0⟩ : PyDateTime).minute = 30))) :=
  ⟨⟨by decide, by decide⟩,
    backward_key_change_flush_iff true
      (initRecorder Nat ⟨2021, 1, 1, 12, 59⟩ ⟨2021, 1, 1, 12, 59⟩)
      7 ⟨2021, 1, 1, 12, 0⟩ 42 (by decide) (by decide)⟩

/-! ### Claim C5 (corrected) -/

/-- Counterexample to claim C5 as stated: a recording run in which zero
results are accepted still writes an archive unit at shutdown — an empty file
for the startup window — because the shutdown save has no emptiness check. -/
theorem empty_shutdown_flush_writes_empty_file :
    runRecording true ⟨2021, 1, 1, 12, 0⟩ ⟨2021, 1, 1, 12, 0⟩
        ([] : List (Nat × PyDateTime × Nat)) [] =
      [("output/20210101/1200.npy", [])] := by
  decide

/-- Amended C5: neither flush checks for emptiness.  The shutdown save (with
recording enabled) always writes the current bucket, and a boundary-crossing
rotation always writes the prior bucket, even when the accumulated record list
is empty — so empty archive files can be produced. -/
theorem flushes_write_unconditionally {P : Type} (s : RecorderState P) (poses : P)
    (dt : PyDateTime) (t : Nat) :
    finalFlush true s = s.saved ++ [(savePath s, s.record_list)] ∧
    (rotate_cond s.dt_pre dt = true →
      (acceptResult true s poses dt t).saved =
        s.saved ++ [(savePath s, s.record_list)]) := by
  constructor
  · rfl
  · intro h
    rw [acceptResult_saved, if_pos h]

/-- Witness for the amended C5: at the (29, 30) boundary with an empty buffer,
both the rotation and the shutdown save still write a (empty) file. -/
theorem flushes_write_unconditionally_witness :
    rotate_cond (initRecorder Nat ⟨2021, 1, 1, 12, 29⟩ ⟨2021, 1, 1, 12, 29⟩).dt_pre
        ⟨2021, 1, 1, 12, 30⟩ = true ∧
    (finalFlush true (initRecorder Nat ⟨2021, 1, 1, 12, 29⟩ ⟨2021, 1, 1, 12, 29⟩) =
        (initRecorder Nat ⟨2021, 1, 1, 12, 29⟩ ⟨2021, 1, 1, 12, 29⟩).saved ++
          [(savePath (initRecorder Nat ⟨2021, 1, 1, 12, 29⟩ ⟨2021, 1, 1, 12, 29⟩),
            (initRecorder Nat ⟨2021, 1, 1, 12, 29⟩ ⟨2021, 1, 1, 12, 29⟩).record_list)] ∧
      (acceptResult true (initRecorder Nat ⟨2021, 1, 1, 12, 29⟩ ⟨2021, 1, 1, 12, 29⟩)
          0 ⟨2021, 1, 1, 12, 30⟩ 9).saved =
        (initRecorder Nat ⟨2021, 1, 1, 12, 29⟩ ⟨2021, 1, 1, 12, 29⟩).saved ++
          [(savePath (initRecorder Nat ⟨2021, 1, 1, 12, 29⟩ ⟨2021, 1, 1, 12, 29⟩),
            (initRecorder Nat ⟨2021, 1, 1, 12, 29⟩ ⟨2021, 1, 1, 12, 29⟩).record_list)]) :=
  ⟨by decide,
    (flushes_write_unconditionally
        (initRecorder Nat ⟨2021, 1, 1, 12, 29⟩ ⟨2021, 1, 1, 12, 29⟩)
        0 ⟨2021, 1, 1, 12, 30⟩ 9).1,
    (flushes_write_unconditionally
        (initRecorder Nat ⟨2021, 1, 1, 12, 29⟩ ⟨2021, 1, 1, 12, 29⟩)
        0 ⟨2021, 1, 1, 12, 30⟩ 9).2 (by decide)⟩

/-! ### Claim C6 (confirmed) -/

/-- Claim C6: for every wall-clock time (any hour below 24 and minute below
60), the bucket key maps minute-of-hour in [0, 29] to window start :00 and
[30, 59] to :30; the key is the four-character half-hour label HHMM drawn from
0000, 0030, …, 2330; the startup computation names the directory and bucket
from that same mapping and creates the date directory; and whenever a boundary
crossing occurs, the archive unit is written under the prior date directory
plus the prior label while the date directory for the new date is created. -/
theorem bucket_key_and_archive_naming {P : Type} (record : Bool)
    (s : RecorderState P) (poses : P) (dt dt0 dtc : PyDateTime) (t : Nat)
    (hh : dt.hour < 24) (hm : dt.minute < 60) :
    (dt.minute ≤ 29 → output_file_name_of dt = twoDigits dt.hour ++ "00") ∧
    (30 ≤ dt.minute → output_file_name_of dt = twoDigits dt.hour ++ "30") ∧
    (output_file_name_of dt).length = 4 ∧
    output_file_name_of dt ∈ halfHourLabels ∧
    (initRecorder P dt dt0).output_dir = output_dir_of dt ∧
    (initRecorder P dt dt0).output_file_name = output_file_name_of dt ∧
    (initRecorder P dt dt0).mkdirs = ["output/" ++ output_dir_of dt] ∧
    (rotate_cond s.dt_pre dtc = true →
      (acceptResult record s poses dtc t).saved =
        s.saved ++
          [("output/" ++ s.output_dir ++ "/" ++ s.output_file_name ++ ".npy",
            s.record_list)] ∧
      (acceptResult record s poses dtc t).mkdirs =
        s.mkdirs ++ ["output/" ++ output_dir_of dtc] ∧
      (acceptResult record s poses dtc t).output_dir = output_dir_of dtc ∧
      (acceptResult record s poses dtc t).output_file_name = output_file_name_of dtc) := by
  have hlen := twoDigits_length dt.hour (by omega)
  obtain ⟨hmem00, hmem30⟩ := halfHourLabels_mem dt.hour hh
  refine ⟨?_, ?_, ?_, ?_, rfl, rfl, rfl, ?_⟩
  · intro h29; simp [output_file_name_of, h29]
  · intro h30
    have : ¬ dt.minute ≤ 29 := by omega
    simp [output_file_name_of, this]
  · unfold output_file_name_of
    by_cases h29 : dt.minute ≤ 29 <;>
      simp [h29, String.length_append, hlen] <;> decide
  · unfold output_file_name_of
    by_cases h29 : dt.minute ≤ 29 <;> simp [h29, hmem00, hmem30]
  · intro hrot
    refine ⟨?_, ?_, ?_, ?_⟩
    · rw [acceptResult_saved, if_pos hrot]; rfl
    · unfold acceptResult
      rw [if_pos hrot]
      by_cases hr : record <;> simp [hr]
    · unfold acceptResult
      rw [if_pos hrot]
      by_cases hr : record <;> simp [hr]
    · unfold acceptResult
      rw [if_pos hrot]
      by_cases hr : record <;> simp [hr]

/-- Witness for C6: the mapping at the non-boundary minute 23:15 (window :00),
the startup naming from that time, and a (29, 30) boundary crossing written
under the prior directory and label. -/
theorem bucket_key_and_archive_naming_witness :
    ((⟨2021, 12, 31, 23, 15⟩ : PyDateTime).hour < 24 ∧
      (⟨2021, 12, 31, 23, 15⟩ : PyDateTime).minute < 60 ∧
      rotate_cond (initRecorder Nat ⟨2021, 12, 31, 23, 29⟩ ⟨2021, 12, 31, 23, 29⟩).dt_pre
        ⟨2021, 12, 31, 23, 30⟩ = true) ∧
    ((⟨2021, 12, 31, 23, 15⟩ : PyDateTime).minute ≤ 29 →
      output_file_name_of ⟨2021, 12, 31, 23, 15⟩ = twoDigits 23 ++ "00") ∧
    (30 ≤ (⟨2021, 12, 31, 23, 15⟩ : PyDateTime).minute →
      output_file_name_of ⟨2021, 12, 31, 23, 15⟩ = twoDigits 23 ++ "30") ∧
    (output_file_name_of (⟨2021, 12, 31, 23, 15⟩ : PyDateTime)).length = 4 ∧
    output_file_name_of (⟨2021, 12, 31, 23, 15⟩ : PyDateTime) ∈ halfHourLabels ∧
    (initRecorder Nat ⟨2021, 12, 31, 23, 15⟩ ⟨2021, 12, 31, 23, 16⟩).output_dir =
      output_dir_of ⟨2021, 12, 31, 23, 15⟩ ∧
    (initRecorder Nat ⟨2021, 12, 31, 23, 15⟩ ⟨2021, 12, 31, 23, 16⟩).output_file_name =
      output_file_name_of ⟨2021, 12, 31, 23, 15⟩ ∧
    (initRecorder Nat ⟨2021, 12, 31, 23, 15⟩ ⟨2021, 12, 31, 23, 16⟩).mkdirs =
      ["output/" ++ output_dir_of ⟨2021, 12, 31, 23, 15⟩] ∧
    ((acceptResult true (initRecorder Nat ⟨2021, 12, 31, 23, 29⟩ ⟨2021, 12, 31, 23, 29⟩)
        0 ⟨2021, 12, 31, 23, 30⟩ 5).saved =
      (initRecorder Nat ⟨2021, 12, 31, 23, 29⟩ ⟨2021, 12, 31, 23, 29⟩).saved ++
        [("output/" ++ (initRecorder Nat ⟨2021, 12, 31, 23, 29⟩ ⟨2021, 12, 31, 23, 29⟩).output_dir ++
            "/" ++ (initRecorder Nat ⟨2021, 12, 31, 23, 29⟩ ⟨2021, 12, 31, 23, 29⟩).output_file_name ++
            ".npy",
          (initRecorder Nat ⟨2021, 12, 31, 23, 29⟩ ⟨2021, 12, 31, 23, 29⟩).record_list)] ∧
    (acceptResult true (initRecorder Nat ⟨2021, 12, 31, 23, 29⟩ ⟨2021, 12, 31, 23, 29⟩)
        0 ⟨2021, 12, 31, 23, 30⟩ 5).mkdirs =
      (initRecorder Nat ⟨2021, 12, 31, 23, 29⟩ ⟨2021, 12, 31, 23, 29⟩).mkdirs ++
        ["output/" ++ output_dir_of ⟨2021, 12, 31, 23, 30⟩] ∧
    (acceptResult true (initRecorder Nat ⟨2021, 12, 31, 23, 29⟩ ⟨2021, 12, 31, 23, 29⟩)
        0 ⟨2021, 12, 31, 23, 30⟩ 5).output_dir = output_dir_of ⟨2021, 12, 31, 23, 30⟩ ∧
    (acceptResult true (initRecorder Nat ⟨2021, 12, 31, 23, 29⟩ ⟨2021, 12, 31, 23, 29⟩)
        0 ⟨2021, 12, 31, 23, 30⟩ 5).output_file_name =
      output_file_name_of ⟨2021, 12, 31, 23, 30⟩) := by
  have T := bucket_key_and_archive_naming true
    (initRecorder Nat ⟨2021, 12, 31, 23, 29⟩ ⟨2021, 12, 31, 23, 29⟩)
    0 ⟨2021, 12, 31, 23, 15⟩ ⟨2021, 12, 31, 23, 16⟩ ⟨2021, 12, 31, 23, 30⟩ 5
    (by decide) (by decide)
  exact ⟨⟨by decide, by decide, by decide⟩, T.1, T.2.1, T.2.2.1, T.2.2.2.1,
    T.2.2.2.2.1, T.2.2.2.2.2.1, T.2.2.2.2.2.2.1, T.2.2.2.2.2.2.2 (by decide)⟩

/-! ### Claim C3 (corrected) -/

/-- Counterexample to claim C3 as stated: with recording enabled and strictly
increasing timestamps, one result delivered in the main loop and one delivered
in the post-cancellation drain loop, the concatenation of the flushed buckets
holds only the main-loop record — the drain-loop delivery is omitted from the
archive. -/
theorem drain_loop_delivery_omitted_from_archive :
    flushedConcat (runRecording true ⟨2021, 1, 1, 12, 0⟩ ⟨2021, 1, 1, 12, 0⟩
        [((0 : Nat), (⟨2021, 1, 1, 12, 1⟩ : PyDateTime), 100)]
        [((1 : Nat), (⟨2021, 1, 1, 12, 2⟩ : PyDateTime), 200)]) ≠
      deliveredRecords
        [((0 : Nat), (⟨2021, 1, 1, 12, 1⟩ : PyDateTime), 100),
          ((1 : Nat), (⟨2021, 1, 1, 12, 2⟩ : PyDateTime), 200)] := by
  decide

/-- Amended C3: with recording enabled, the concatenation of all flushed
buckets' records in flush order equals exactly the sequence of results
delivered during the main loop, with no record duplicated or omitted; results
delivered during the post-cancellation drain loop are never appended to any
bucket and are absent from the archive. -/
theorem flushed_buckets_equal_main_loop_records {P : Type}
    (dt_now0 dt_pre0 : PyDateTime)
    (mainDeliveries drainDeliveries : List (P × PyDateTime × Nat)) :
    flushedConcat (runRecording true dt_now0 dt_pre0 mainDeliveries drainDeliveries) =
      deliveredRecords mainDeliveries := by
  unfold runRecording finalFlush
  rw [if_pos rfl]
  have hinv := acceptAll_records_invariant mainDeliveries
    (initRecorder P dt_now0 dt_pre0)
  have hfc : flushedConcat
      ((acceptAll true (initRecorder P dt_now0 dt_pre0) mainDeliveries).saved ++
        [(savePath (acceptAll true (initRecorder P dt_now0 dt_pre0) mainDeliveries),
          (acceptAll true (initRecorder P dt_now0 dt_pre0) mainDeliveries).record_list)]) =
      flushedConcat (acceptAll true (initRecorder P dt_now0 dt_pre0) mainDeliveries).saved ++
        (acceptAll true (initRecorder P dt_now0 dt_pre0) mainDeliveries).record_list := by
    simp [flushedConcat]
  rw [hfc, hinv]
  simp [initRecorder, flushedConcat]

/-! ### Claim C4 (corrected) -/

/-- Counterexample to claim C4 as stated: when the loop ends by re-raising a
backend callback exception, the process does exit with status 1, but none of
`await_all`, the drain loop or the final save run — the exception escapes the
`except KeyboardInterrupt` clause and skips everything after the `try` block,
so the in-flight work is not drained and the buffered records are not
flushed. -/
theorem callback_exception_exits_without_drain_or_flush :
    (mainTail true LoopEnd.callbackException).2 = 1 ∧
    MainAction.awaitAll ∉ (mainTail true LoopEnd.callbackException).1 ∧
    MainAction.drainResults ∉ (mainTail true LoopEnd.callbackException).1 ∧
    MainAction.finalSave ∉ (mainTail true LoopEnd.callbackException).1 := by
  decide

/-- Amended C4: an exception raised inside a slot's asynchronous execution is
surfaced to the control thread at the top of the very next loop iteration (the
first element of `callback_exceptions` is re-raised), and the process then
terminates with a non-zero exit status, but WITHOUT draining the in-flight
work and WITHOUT flushing the buffered records: only `KeyboardInterrupt` or a
normal loop exit reach the drain loop and the final save. -/
theorem callback_exception_surfaced_and_fatal (record : Bool) :
    (∀ (E : Type) (e : E) (rest : List E),
      callbackCheck (e :: rest) = Except.error e) ∧
    mainTail record LoopEnd.callbackException = ([], 1) ∧
    mainTail record LoopEnd.keyboardInterrupt =
      ([MainAction.awaitAll, MainAction.drainResults] ++
        (if record then [MainAction.finalSave] else []) ++
        [MainAction.printTotals], 0) ∧
    mainTail record LoopEnd.sourceEnd =
      ([MainAction.awaitAll, MainAction.drainResults] ++
        (if record then [MainAction.finalSave] else []) ++
        [MainAction.printTotals], 0) :=
  ⟨fun _ _ _ => rfl, rfl, rfl, rfl⟩

/-! ### Claim C9 (confirmed) -/

/-- Claim C9: when the output video writer is open, no frame delivered during
the main processing loop is ever written to the video file — the guarded
branch there is `pass` with the write commented out, so the written-frames
state is unchanged by every main-loop delivery — while a drain-loop delivery
under the same guard does write its frame. -/
theorem main_loop_video_write_disabled {F : Type} (isOpened : Bool)
    (output_limit : Int) (next_frame_id_to_show : Nat) (written : List F)
    (frame : F) :
    mainLoopVideoWrite isOpened output_limit next_frame_id_to_show written frame =
      written ∧
    (writeCondition isOpened output_limit next_frame_id_to_show = true →
      drainLoopVideoWrite isOpened output_limit next_frame_id_to_show written frame =
        written ++ [frame]) := by
  constructor
  · unfold mainLoopVideoWrite
    split <;> rfl
  · intro h
    unfold drainLoopVideoWrite
    rw [if_pos h]

/-- Witness for C9: an open writer, a 1000-frame limit and frame id 0 satisfy
the write guard; the main loop still writes nothing while the drain loop
writes the frame. -/
theorem main_loop_video_write_disabled_witness :
    writeCondition true 1000 0 = true ∧
    mainLoopVideoWrite true 1000 0 ([] : List Nat) 7 = [] ∧
    drainLoopVideoWrite true 1000 0 ([] : List Nat) 7 = [] ++ [7] :=
  ⟨by decide, (main_loop_video_write_disabled true 1000 0 [] 7).1,
    (main_loop_video_write_disabled true 1000 0 [] 7).2 (by decide)⟩

/-! ### Claim C7 (corrected) -/

/-- Counterexample to claim C7 as stated: the recording pipeline can write an
archive unit with zero records (the shutdown save of a run with no accepted
results), and loading that unit does not reconstruct anything — the
two-dimensional column split fails with an `IndexError`. -/
theorem empty_archive_unit_fails_roundtrip :
    runRecording true ⟨2021, 1, 1, 13, 0⟩ ⟨2021, 1, 1, 13, 0⟩
        ([] : List (Nat × PyDateTime × Nat)) [] =
      [("output/20210101/1300.npy", [])] ∧
    load_columns (np_save ([] : List (Nat × Nat))) =
      Except.error "too many indices for array" :=
  ⟨by decide, rfl⟩

/-- Amended C7: for every NONEMPTY archive unit written as an ordered sequence
of (poses, timestamp) pairs with `np.save`, the offline post-processor's load
reconstructs column 0 (the payloads) and column 1 (the timestamps) in exactly
the order the records were written; empty archive units instead fail to
load. -/
theorem archive_roundtrip_nonempty {P : Type} (records : List (P × Nat))
    (h : records ≠ []) :
    load_columns (np_save records) =
      Except.ok (records.map Prod.fst, records.map Prod.snd) := by
  cases records with
  | nil => exact absurd rfl h
  | cons r rs => rfl

/-- Witness for the amended C7: a two-record archive round-trips in order. -/
theorem archive_roundtrip_nonempty_witness :
    ([((5 : Nat), 100), (7, 200)] : List (Nat × Nat)) ≠ [] ∧
    load_columns (np_save [((5 : Nat), 100), (7, 200)]) =
      Except.ok ([5, 7], [100, 200]) :=
  ⟨by decide, archive_roundtrip_nonempty [(5, 100), (7, 200)] (by decide)⟩

/-! ### Claim C10 (confirmed) -/

/-- Claim C10: an archive unit containing zero records is saved by `np.save`
as a one-dimensional empty array, and the offline post-processor's
two-dimensional column split `load_data[:,0]` then fails with an indexing
error — zero-record archive units are unreadable by the offline consumer. -/
theorem empty_archive_unreadable (P : Type) :
    np_save ([] : List (P × Nat)) = NpSaved.empty1D ∧
    load_columns (np_save ([] : List (P × Nat))) =
      Except.error "too many indices for array" :=
  ⟨rfl, rfl⟩

end HPEDemo
